import Mathlib

/-! Verification of the musicat playback engine (src/src-tauri/src/player.rs):
a shallow embedding of the decode loop, the loop-region and transition logic,
the end-of-stream handler, the sink reopen policy, the initial-seek error
handling, the waveform peaks extractor and the waiting-state control handler,
with theorems settling the specified properties. -/

namespace Musicat

/-- Events sent from the decode loop to the UI or to the sink control
channels (app_handle.emit, reset_control_sender, sender_sample_offset). -/
inductive UiEvent where
  | songChange
  | resetControl
  | offsetEvent (sampleOffset : Nat)
  | fileSamples (n : Nat)
deriving DecidableEq

/-- Outcome of the session-setup prefix of a decode_loop iteration that has a
current path (player.rs 444-486). The source opens the file with
File::open(path).unwrap(), so an open failure is an unhandled panic of the
decode thread; a format-probe failure sets path_str back to None and
continues the outer loop, returning to the waiting state. -/
inductive SetupOutcome where
  | panicOnOpen
  | abandonToWaiting
  | proceed
deriving DecidableEq

/-- player.rs 444-486: open the file (unwrap) and probe the format. -/
def openAndProbe (openOk probeOk : Bool) : SetupOutcome :=
  if !openOk then SetupOutcome.panicOnOpen
  else if !probeOk then SetupOutcome.abandonToWaiting
  else SetupOutcome.proceed

/-- UI events emitted by session setup; none (not even a list) when the setup
panics. After a successful probe the only event emitted before decoding is
file-samples (player.rs 490-492); an open failure or a probe failure emits
nothing, in particular no song_change. -/
def setupUiEvents (openOk probeOk : Bool) (nFrames : Option Nat) : Option (List UiEvent) :=
  match openAndProbe openOk probeOk with
  | SetupOutcome.panicOnOpen => none
  | SetupOutcome.abandonToWaiting => some []
  | SetupOutcome.proceed =>
    some (match nFrames with
      | some n => [UiEvent.fileSamples n]
      | none => [])

/-- Ramp arguments of a guard.write call (player.rs 890-900). -/
structure WriteCall where
  rampUpSmpls : Nat
  rampDownSmpls : Nat
deriving DecidableEq

/-- Wrapping u64 subtraction: frames - packet.dur at player.rs 894 is u64
arithmetic, which wraps modulo 2 ^ 64 in a release build. -/
def wrapSub64 (a b : Nat) : Nat :=
  (a + (2 ^ 64 - b % 2 ^ 64)) % 2 ^ 64

/-- player.rs 893-899: ramp selection for a written packet when the total
frame count is known. The ramp-down branch is checked first and the ramp-up
branch is an else-if. -/
def rampsFor (nFrames : Option Nat) (ts dur : Nat) : WriteCall :=
  match nFrames with
  | none => ⟨0, 0⟩
  | some frames =>
    if wrapSub64 frames dur ≤ ts then ⟨0, dur⟩
    else if ts < dur then ⟨dur, 0⟩
    else ⟨0, 0⟩

/-- player.rs 886-901: a decoded packet is written to the ring buffer only if
the cancel token is not cancelled and packet.ts >= seek_ts; otherwise no
samples of the packet reach the sink. -/
def packetWrite (cancelled : Bool) (seekTs : Nat) (nFrames : Option Nat) (ts dur : Nat) :
    Option WriteCall :=
  if cancelled then none
  else if seekTs ≤ ts then some (rampsFor nFrames ts dur)
  else none

/-- player.rs 804: the loop-region wrap check for one packet,
end_pos.is_some() and packet.ts > end_pos_frame_idx. -/
def loopWrapTriggered (endPosSet : Bool) (endPosFrameIdx ts : Nat) : Bool :=
  endPosSet && decide (endPosFrameIdx < ts)

/-- One packet of the decode loop restricted to the loop-region logic of
player.rs 804-825 and 886-901: the wrap check (which seeks the reader back to
the loop start and sets is_transition) followed by the ring-buffer write
decision on the same packet. Returns the value of is_transition after the
packet and the write call, if any. -/
def loopRegionStep (endPosSet : Bool) (endPosFrameIdx seekTs : Nat)
    (cancelled isTransition : Bool) (nFrames : Option Nat) (ts dur : Nat) :
    Bool × Option WriteCall :=
  let wrapped := loopWrapTriggered endPosSet endPosFrameIdx ts
  (isTransition || wrapped, packetWrite cancelled seekTs nFrames ts dur)

/-- Session constants consulted by the transition logic (player.rs 837-878). -/
structure TransCfg where
  endPosSet : Bool
  metadataOk : Bool
  seekTs : Nat
  channels : Nat
  prevChannels : Nat
deriving DecidableEq

/-- The is_transition, started_transition and transition_time variables. -/
structure TransState where
  isTransition : Bool
  started : Bool
  transitionTime : Nat
deriving DecidableEq

/-- Events emitted when the 5 second delay has elapsed (player.rs 841-874):
an offset event with seek_ts * previous_channels when a loop end position is
set, then, when metadata extraction succeeds, song_change, the reset-control
pulse and an offset event with seek_ts * channel count. -/
def transitionEvents (cfg : TransCfg) : List UiEvent :=
  (if cfg.endPosSet then [UiEvent.offsetEvent (cfg.seekTs * cfg.prevChannels)] else [])
    ++ (if cfg.metadataOk then
          [UiEvent.songChange, UiEvent.resetControl,
            UiEvent.offsetEvent (cfg.seekTs * cfg.channels)]
        else [])

/-- player.rs 837-878: transition handling at one decoded packet, at wall
clock time now (in whole seconds, as produced by elapsed().as_secs()). -/
def transitionStep (cfg : TransCfg) (st : TransState) (now : Nat) :
    TransState × List UiEvent :=
  if st.isTransition && !st.started then
    ({ st with started := true, transitionTime := now }, [])
  else if st.isTransition && st.started then
    if 5 ≤ now - st.transitionTime then
      (⟨false, false, st.transitionTime⟩, transitionEvents cfg)
    else (st, [])
  else (st, [])

/-- Run the transition logic over the wall-clock times of a sequence of
decoded packets, collecting each emitted event with the time it was sent. -/
def runTransition (cfg : TransCfg) : TransState → List Nat → List (Nat × UiEvent)
  | _, [] => []
  | st, t :: ts =>
    let r := transitionStep cfg st t
    r.2.map (fun e => (t, e)) ++ runTransition cfg r.1 ts

/-- Payload of a StreamFile or next-track request; the fields read by the
decode loop, with f64 values modelled as Float. -/
structure StreamFileRequest where
  path : Option String
  seek : Option Float
  volume : Option Float

/-- Outcome of the end-of-stream handler (player.rs 914-953). stopAndPause
stands for the drain wait (sleep until has_remaining_samples() is false),
guard.pause() and the stopped event. -/
inductive EosOutcome where
  | newSession (path : String) (isTransition isReset : Bool)
  | panicOnUnwrap
  | stopAndPause
  | fallThrough
deriving DecidableEq

/-- player.rs 919-947: drain the next-track queue non-blocking, keeping only
the last entry; with an entry that has a path, start it as a transition with
is_reset = false (the branch unwraps seek and volume); with an entry without
a path, wait for the buffer to drain, pause the sink and emit stopped; with
no entry at all, fall through (path_str is already None, so the outer loop
returns to the waiting state without pausing or emitting anything). -/
def eosHandler (queue : List StreamFileRequest) : EosOutcome :=
  match queue.getLast? with
  | none => EosOutcome.fallThrough
  | some req =>
    match req.path with
    | some p =>
      match req.seek, req.volume with
      | some _, some _ => EosOutcome.newSession p true false
      | _, _ => EosOutcome.panicOnUnwrap
    | none => EosOutcome.stopAndPause

/-- player.rs 604-606: should_reset_audio. Rust precedence makes the
conjunction bind tighter than the disjunctions. -/
def should_reset_audio (previousAudioDeviceName deviceName : String)
    (supportsSampleRate : Bool) (rate previousSampleRate : Nat)
    (channelCount previousChannels : Nat) : Bool :=
  decide (previousAudioDeviceName ≠ deviceName)
    || (supportsSampleRate && decide (rate ≠ previousSampleRate))
    || decide (channelCount ≠ previousChannels)

/-- player.rs 613: the audio output is (re)opened when it is absent or
should_reset_audio holds; otherwise the existing output is reused. -/
def opensAudioOutput (audioOutputIsNone : Bool) (previousAudioDeviceName deviceName : String)
    (supportsSampleRate : Bool) (rate previousSampleRate : Nat)
    (channelCount previousChannels : Nat) : Bool :=
  audioOutputIsNone
    || should_reset_audio previousAudioDeviceName deviceName supportsSampleRate rate
        previousSampleRate channelCount previousChannels

/-- The reopen condition in the words of the spec, for comparison with
opensAudioOutput: the sink is absent, or the device name changed, or the
device supports the new rate and the rate changed, or the channel count
changed. -/
def sinkReopenSpec (audioOutputIsNone : Bool) (previousAudioDeviceName deviceName : String)
    (supportsSampleRate : Bool) (rate previousSampleRate : Nat)
    (channelCount previousChannels : Nat) : Prop :=
  audioOutputIsNone = true
    ∨ previousAudioDeviceName ≠ deviceName
    ∨ (supportsSampleRate = true ∧ rate ≠ previousSampleRate)
    ∨ channelCount ≠ previousChannels

/-- The fields of a symphonia track consulted by first_supported_track. -/
structure Track where
  id : Nat
  codec : Nat
deriving DecidableEq

/-- The null codec id CODEC_TYPE_NULL. -/
def CODEC_TYPE_NULL : Nat := 0

/-- player.rs 963-967: the first track whose codec is not the null codec. -/
def first_supported_track (tracks : List Track) : Option Track :=
  tracks.find? (fun t => decide (t.codec ≠ CODEC_TYPE_NULL))

/-- Result of the reader.seek call of the initial seek (player.rs 510). -/
inductive SeekAttempt where
  | ok (requiredTs : Nat)
  | resetRequired
  | otherError
deriving DecidableEq

/-- Outcome of resolving the initial seek (player.rs 502-525): the selected
track id and seek_ts, or the panic when ResetRequired finds no supported
track, since the source unwraps first_supported_track. -/
inductive SeekOutcome where
  | proceed (trackId seekTs : Nat)
  | panicNoSupportedTrack
deriving DecidableEq

/-- player.rs 502-525: resolve the initial seek. When no seek is requested
the seek timestamp is 0; an Ok seek yields required_ts; a ResetRequired
failure re-selects the first supported track with timestamp 0; any other
failure is logged and yields timestamp 0 with the default track unchanged. -/
def resolveInitialSeek (seekRequested : Bool) (attempt : SeekAttempt)
    (defaultTrackId : Nat) (tracks : List Track) : SeekOutcome :=
  if seekRequested then
    match attempt with
    | SeekAttempt.ok ts => SeekOutcome.proceed defaultTrackId ts
    | SeekAttempt.resetRequired =>
      match first_supported_track tracks with
      | some t => SeekOutcome.proceed t.id 0
      | none => SeekOutcome.panicNoSupportedTrack
    | SeekAttempt.otherError => SeekOutcome.proceed defaultTrackId 0
  else SeekOutcome.proceed defaultTrackId 0

/-- get_peaks builds new_spec with Layout::Stereo (player.rs 1029), so the
channel count used for the expected size is always 2, whatever the file. -/
def peaksSpecChannels : Nat := 2

/-- player.rs 1031-1032: expected_peaks_size. -/
def expected_peaks_size (nFrames : Nat) : Nat :=
  nFrames * peaksSpecChannels / 4000

/-- The formula the claim states, with the channel count of the FILE; kept
alongside expected_peaks_size for comparison. -/
def expectedPeaksClaim (nFrames fileChannels : Nat) : Nat :=
  nFrames * fileChannels / 4000

/-- player.rs 1075-1077: the emitted array is peaks padded with
expected_peaks_size.saturating_sub(peaks.len()) trailing zeros. -/
def emittedWaveform (peaks : List Float) (expected : Nat) : List Float :=
  peaks ++ List.replicate (expected - peaks.length) 0

/-- player.rs 1072-1074: total_count is incremented per decoded packet and an
event is emitted, with the counter reset to 0, when the counter exceeds 100.
Returns the new counter value and whether an event is emitted. -/
def peaksCounterStep (totalCount : Nat) : Nat × Bool :=
  if totalCount + 1 > 100 then (0, true) else (totalCount + 1, false)

/-- Payload of a LoopRegion request. -/
structure LoopRegionRequest where
  enabled : Option Bool
  start_pos : Option Float
  end_pos : Option Float

/-- Outcome of handling a control event in the waiting state. -/
inductive WaitOutcome where
  | startSession (path : String)
  | panicOnUnwrap
deriving DecidableEq

/-- player.rs 421-427: the LoopRegion arm of the waiting state unwraps
path_str_clone (always None in the waiting state, where path_str is None),
then unwraps the optional start_pos and end_pos of the request. -/
def waitingLoopRegion (pathStrClone : Option String) (req : LoopRegionRequest) : WaitOutcome :=
  match pathStrClone with
  | none => WaitOutcome.panicOnUnwrap
  | some p =>
    match req.start_pos with
    | none => WaitOutcome.panicOnUnwrap
    | some _ =>
      match req.end_pos with
      | none => WaitOutcome.panicOnUnwrap
      | some _ => WaitOutcome.startSession p

/-- Helper: for subtrahends below the modulus and minuends below 2 ^ 64, the
wrapping u64 subtraction agrees with truncated subtraction. -/
theorem wrapSub64_eq (a b : Nat) (hb : b ≤ a) (ha : a < 2 ^ 64) :
    wrapSub64 a b = a - b := by
  unfold wrapSub64
  have hblt : b < 2 ^ 64 := Nat.lt_of_le_of_lt hb ha
  rw [Nat.mod_eq_of_lt hblt]
  have h1 : a + (2 ^ 64 - b) = a - b + 2 ^ 64 := by
    rw [← Nat.add_sub_assoc (Nat.le_of_lt hblt) a, Nat.sub_add_comm hb]
  rw [h1, Nat.add_mod_right]
  exact Nat.mod_eq_of_lt (Nat.lt_of_le_of_lt (Nat.sub_le a b) ha)

/-- Helper: after the first packet of a transition has recorded wall time t0,
any event emitted by the remaining packets is emitted at a time of at least
t0 + 5, and once the transition state is cleared nothing further is sent. -/
theorem runTransition_after_start (cfg : TransCfg) (t0 : Nat) :
    ∀ (rest : List Nat) (st : TransState),
      (st = ⟨true, true, t0⟩ ∨ st.isTransition = false) →
      ∀ p ∈ runTransition cfg st rest, t0 + 5 ≤ p.1 := by
  intro rest
  induction rest with
  | nil =>
    intro st _ p hp
    simp [runTransition] at hp
  | cons t ts ih =>
    intro st hst p hp
    rcases hst with hst | hst
    · subst hst
      by_cases h5 : 5 ≤ t - t0
      · have hstep : transitionStep cfg ⟨true, true, t0⟩ t =
            (⟨false, false, t0⟩, transitionEvents cfg) := by
          simp [transitionStep, h5]
        simp only [runTransition] at hp
        rw [hstep] at hp
        rcases List.mem_append.mp hp with hl | hr
        · rcases List.mem_map.mp hl with ⟨e, _, hpe⟩
          subst hpe
          omega
        · exact ih ⟨false, false, t0⟩ (Or.inr rfl) p hr
      · have hstep : transitionStep cfg ⟨true, true, t0⟩ t = (⟨true, true, t0⟩, []) := by
          simp [transitionStep, h5]
        simp only [runTransition] at hp
        rw [hstep] at hp
        simp only [List.map_nil, List.nil_append] at hp
        exact ih ⟨true, true, t0⟩ (Or.inl rfl) p hp
    · have hstep : transitionStep cfg st t = (st, []) := by
        simp [transitionStep, hst]
      simp only [runTransition] at hp
      rw [hstep] at hp
      simp only [List.map_nil, List.nil_append] at hp
      exact ih st (Or.inr hst) p hp

/-- Claim C1, counterexample: for a path whose file cannot be opened, the
decode loop panics on File::open(path).unwrap() instead of handling the
error, so the engine does not return to the waiting state on such a file. -/
theorem c1_counterexample :
    openAndProbe false true = SetupOutcome.panicOnOpen ∧
    setupUiEvents false true (some 1000) = none :=
  ⟨rfl, rfl⟩

/-- Claim C1 (amended): for a file that can be opened, a format-probe failure
abandons the session, returns the decode loop to the waiting state and emits
no event, in particular no song_change; for a file that cannot be opened the
decode loop panics on the unwrap of File::open, emitting nothing. -/
theorem c1_bad_file :
    (∀ probeOk nFrames, setupUiEvents false probeOk nFrames = none ∧
        openAndProbe false probeOk = SetupOutcome.panicOnOpen) ∧
    openAndProbe true false = SetupOutcome.abandonToWaiting ∧
    (∀ nFrames, (setupUiEvents true false nFrames).getD [] = []) :=
  ⟨fun _ _ => ⟨rfl, rfl⟩, rfl, fun _ => rfl⟩

/-- Claim C2: a packet of the current session with ts < seek_ts is never
written, so zero of its samples reach the ring buffer, and a write happens
only when the cancel token is clear and ts >= seek_ts. -/
theorem c2_seek_trim (cancelled : Bool) (seekTs : Nat) (nFrames : Option Nat) (ts dur : Nat) :
    (ts < seekTs → packetWrite cancelled seekTs nFrames ts dur = none) ∧
    (packetWrite cancelled seekTs nFrames ts dur ≠ none →
      cancelled = false ∧ seekTs ≤ ts) := by
  cases cancelled with
  | true => exact ⟨fun _ => rfl, fun h => absurd rfl h⟩
  | false =>
    by_cases hle : seekTs ≤ ts
    · constructor
      · intro hlt
        exact absurd hlt (by omega)
      · intro _
        exact ⟨rfl, hle⟩
    · constructor
      · intro _
        simp [packetWrite, hle]
      · intro h
        exfalso
        apply h
        simp [packetWrite, hle]

/-- Claim C2 witness. -/
theorem c2_witness : packetWrite false 100 none 50 1152 = none :=
  (c2_seek_trim false 100 none 50 1152).1 (by decide)

/-- Claim C3, counterexample: at end of stream with an empty next-track queue
the handler falls through; it does not run the drain-wait, pause and stopped
branch, which requires a drained entry whose path is None. -/
theorem c3_counterexample :
    eosHandler [] = EosOutcome.fallThrough ∧ eosHandler [] ≠ EosOutcome.stopAndPause :=
  ⟨rfl, by decide⟩

/-- Claim C3 (amended): on end-of-stream the drain keeps only the last queue
entry; the wait-until-empty, pause and stopped sequence runs when that entry
exists and carries no path, while a truly empty queue falls through to the
waiting state without pausing or emitting stopped. -/
theorem c3_eos_amended (queue : List StreamFileRequest) (req : StreamFileRequest)
    (h1 : queue.getLast? = some req) (h2 : req.path = none) :
    eosHandler queue = EosOutcome.stopAndPause ∧
    eosHandler [] = EosOutcome.fallThrough := by
  constructor
  · simp [eosHandler, h1, h2]
  · rfl

/-- Claim C3 witness. -/
theorem c3_witness :
    eosHandler [⟨none, none, none⟩] = EosOutcome.stopAndPause ∧
    eosHandler [] = EosOutcome.fallThrough :=
  c3_eos_amended [⟨none, none, none⟩] ⟨none, none, none⟩ rfl rfl

/-- Claim C4: during a transition, with the wall time t0 of the first decoded
packet of the new session recorded, every event sent by the transition logic
(song_change, the offset resets, the reset-control pulse) is emitted no
earlier than t0 + 5 seconds, and the is_transition flag is cleared only at a
packet decoded at a time of at least t0 + 5. -/
theorem c4_transition_delay (cfg : TransCfg) (tInit t0 : Nat) (rest : List Nat) :
    (∀ p ∈ runTransition cfg ⟨true, false, tInit⟩ (t0 :: rest), t0 + 5 ≤ p.1) ∧
    (∀ st : TransState, ∀ t : Nat, st.isTransition = true → st.started = true →
      st.transitionTime = t0 → (transitionStep cfg st t).1.isTransition = false →
      t0 + 5 ≤ t) := by
  constructor
  · intro p hp
    have hstep : transitionStep cfg ⟨true, false, tInit⟩ t0 = (⟨true, true, t0⟩, []) := by
      simp [transitionStep]
    simp only [runTransition] at hp
    rw [hstep] at hp
    simp only [List.map_nil, List.nil_append] at hp
    exact runTransition_after_start cfg t0 rest ⟨true, true, t0⟩ (Or.inl rfl) p hp
  · intro st t h1 h2 h3 hclear
    by_cases h5 : 5 ≤ t - t0
    · omega
    · exfalso
      have hstep : transitionStep cfg st t = (st, []) := by
        simp [transitionStep, h1, h2, h3, h5]
      rw [hstep] at hclear
      rw [h1] at hclear
      exact Bool.noConfusion hclear

/-- Claim C4 witness. -/
theorem c4_witness : (0 : Nat) + 5 ≤ 7 :=
  (c4_transition_delay ⟨true, true, 480000, 2, 2⟩ 0 0 [7]).1
    (7, UiEvent.songChange) (by decide)

/-- Claim C5: the audio output is (re)opened exactly when it is absent, or
the device name changed, or the device supports the new sample rate and that
rate differs from the previous session, or the channel count changed;
otherwise the existing output is reused. -/
theorem c5_sink_reopen (audioOutputIsNone : Bool) (prevName devName : String)
    (supportsSampleRate : Bool) (rate prevRate chCount prevCh : Nat) :
    opensAudioOutput audioOutputIsNone prevName devName supportsSampleRate rate prevRate
        chCount prevCh = true ↔
      sinkReopenSpec audioOutputIsNone prevName devName supportsSampleRate rate prevRate
        chCount prevCh := by
  simp only [opensAudioOutput, should_reset_audio, sinkReopenSpec, Bool.or_eq_true,
    Bool.and_eq_true, decide_eq_true_eq]
  tauto

/-- Claim C6, counterexample: with end_pos_frame_idx 576000 (a 12 second loop
end at 48 kHz), the packet with ts 576001 is past the loop end, yet it is
still written, so its samples sit at offsets beyond
end * rate * channels = 1152000; and one second into the wrap transition no
offset reset has been sent yet (the reset is withheld for 5 seconds). -/
theorem c6_counterexample :
    (576000 : Nat) < 576001 ∧
    (loopRegionStep true 576000 480000 false false none 576001 1152).2.isSome = true ∧
    (1152000 : Nat) < 576001 * 2 ∧
    (transitionStep ⟨true, true, 480000, 2, 2⟩ ⟨true, true, 0⟩ 1).2 = [] := by
  refine ⟨by decide, by decide, by decide, by decide⟩

/-- Claim C6 (amended): with looping enabled, a packet whose timestamp
exceeds end_pos_frame_idx makes the reader seek back to the loop start and
sets is_transition, but that boundary packet is itself still written when the
token is clear and ts >= seek_ts, so up to one packet of samples past
end * rate * channels reaches the sink; after the 5 second transition delay
the first event sent is the offset reset carrying seek_ts times the channel
count, the loop start position in samples. -/
theorem c6_loop_region_amended (endPosFrameIdx seekTs ts dur : Nat) (nFrames : Option Nat)
    (hts : endPosFrameIdx < ts) :
    (loopRegionStep true endPosFrameIdx seekTs false false nFrames ts dur).1 = true ∧
    (seekTs ≤ ts →
      (loopRegionStep true endPosFrameIdx seekTs false false nFrames ts dur).2 =
        some (rampsFor nFrames ts dur)) ∧
    (∀ cfg : TransCfg, ∀ st : TransState, ∀ now : Nat,
      cfg.endPosSet = true → st.isTransition = true → st.started = true →
      5 ≤ now - st.transitionTime →
      ((transitionStep cfg st now).2).head? =
        some (UiEvent.offsetEvent (cfg.seekTs * cfg.prevChannels))) := by
  refine ⟨?_, ?_, ?_⟩
  · simp [loopRegionStep, loopWrapTriggered, hts]
  · intro hle
    simp [loopRegionStep, packetWrite, hle]
  · intro cfg st now h1 h2 h3 h5
    simp [transitionStep, h2, h3, h5, transitionEvents, h1]

/-- Claim C6 witness. -/
theorem c6_witness :
    (loopRegionStep true 576000 480000 false false none 576001 1152).1 = true :=
  (c6_loop_region_amended 576000 480000 576001 1152 none (by decide)).1

/-- Claim C7, counterexample: a one packet file with n_frames = 1152, packet
dur = 1152 and ts = 0 satisfies ts < dur, but the ramp-down branch is checked
first, so the packet is written with ramp_up = 0 and ramp_down = 1152,
not with ramp_up = packet.dur as the claim states. -/
theorem c7_counterexample :
    (0 : Nat) < 1152 ∧
    packetWrite false 0 (some 1152) 0 1152 = some ⟨0, 1152⟩ :=
  ⟨by decide, by decide⟩

/-- Claim C7 (amended): when the total frame count is known and
packet.dur <= total_frames, a written packet with ts >= frames - dur gets
ramp_down = dur and ramp_up = 0, and this branch takes precedence even when
ts < dur; a written packet with ts < frames - dur gets ramp_up = dur exactly
when ts < dur; every other written packet gets zero ramps on both ends. -/
theorem c7_ramp_amended (frames ts dur : Nat) (cancelled : Bool) (seekTs : Nat)
    (w : WriteCall) (hdur : dur ≤ frames) (hframes : frames < 2 ^ 64)
    (hw : packetWrite cancelled seekTs (some frames) ts dur = some w) :
    (frames - dur ≤ ts → w = ⟨0, dur⟩) ∧
    (ts < frames - dur → ts < dur → w = ⟨dur, 0⟩) ∧
    (ts < frames - dur → dur ≤ ts → w = ⟨0, 0⟩) := by
  have hsub : wrapSub64 frames dur = frames - dur := wrapSub64_eq frames dur hdur hframes
  have hwv : w = rampsFor (some frames) ts dur := by
    cases cancelled with
    | true => simp [packetWrite] at hw
    | false =>
      by_cases hle : seekTs ≤ ts
      · simp [packetWrite, hle] at hw
        exact hw.symm
      · simp [packetWrite, hle] at hw
  subst hwv
  refine ⟨?_, ?_, ?_⟩
  · intro h
    simp [rampsFor, hsub, h]
  · intro h1 h2
    have hn : ¬ (frames - dur ≤ ts) := by omega
    simp [rampsFor, hsub, hn, h2]
  · intro h1 h2
    have hn : ¬ (frames - dur ≤ ts) := by omega
    have hn2 : ¬ (ts < dur) := by omega
    simp [rampsFor, hsub, hn, hn2]

/-- Claim C7 witness. -/
theorem c7_witness :
    packetWrite false 0 (some 2304) 0 1152 = some ⟨1152, 0⟩ ∧
    (⟨1152, 0⟩ : WriteCall) = ⟨1152, 0⟩ :=
  ⟨by decide,
    (c7_ramp_amended 2304 0 1152 false 0 ⟨1152, 0⟩ (by decide) (by decide)
      (by decide)).2.1 (by decide) (by decide)⟩

/-- Claim C8: a ResetRequired failure of the initial seek re-selects the
first supported track and proceeds with seek timestamp 0; any other seek
error is logged and decoding proceeds with the default track and seek
timestamp 0 (no samples trimmed), never abandoning the session. -/
theorem c8_seek_error_handling (defaultTrackId : Nat) (tracks : List Track) (t : Track)
    (h : first_supported_track tracks = some t) :
    resolveInitialSeek true SeekAttempt.resetRequired defaultTrackId tracks =
      SeekOutcome.proceed t.id 0 ∧
    resolveInitialSeek true SeekAttempt.otherError defaultTrackId tracks =
      SeekOutcome.proceed defaultTrackId 0 := by
  constructor
  · simp [resolveInitialSeek, h]
  · rfl

/-- Claim C8 witness. -/
theorem c8_witness :
    resolveInitialSeek true SeekAttempt.resetRequired 9 [⟨3, 1⟩] =
      SeekOutcome.proceed 3 0 ∧
    resolveInitialSeek true SeekAttempt.otherError 9 [⟨3, 1⟩] =
      SeekOutcome.proceed 9 0 :=
  c8_seek_error_handling 9 [⟨3, 1⟩] ⟨3, 1⟩ (by decide)

/-- Claim C9, counterexample: for a mono file with n_frames = 4000 the claim
expects the emitted array padded to n_frames * fileChannels / 4000 = 1, but
get_peaks hardcodes a stereo spec, so the emitted array has length 2. -/
theorem c9_counterexample :
    (emittedWaveform [] (expected_peaks_size 4000)).length ≠ expectedPeaksClaim 4000 1 := by
  decide

/-- Claim C9 (amended): every 101 decoded packets a progressive waveform
event is emitted whose array is the accumulated peaks padded with trailing
zeros to expected_peaks_size = n_frames * 2 / 4000, the 2 being a hardcoded
stereo channel count; the padding uses a saturating subtraction, so the
emitted length equals max(len(peaks), expected_peaks_size) and equals
expected_peaks_size whenever the accumulated peaks do not exceed it. -/
theorem c9_waveform_amended (peaks : List Float) (expected : Nat) :
    (emittedWaveform peaks expected).length = max peaks.length expected ∧
    (peaks.length ≤ expected → (emittedWaveform peaks expected).length = expected) ∧
    (∀ c : Nat, ((peaksCounterStep c).2 = true ↔ 100 ≤ c)) := by
  refine ⟨?_, ?_, ?_⟩
  · simp [emittedWaveform]
    omega
  · intro h
    simp [emittedWaveform]
    omega
  · intro c
    by_cases h : c + 1 > 100
    · simp [peaksCounterStep, h]
      omega
    · simp [peaksCounterStep, h]
      omega

/-- Claim C9 witness. -/
theorem c9_witness : (emittedWaveform [] 2).length = 2 :=
  (c9_waveform_amended [] 2).2.1 (by decide)

/-- Claim C10: a LoopRegion control event delivered in the waiting state (no
current path) panics the decode loop, since the handler unconditionally
unwraps the absent previous path; and even with a previous path present it
unwraps the optional start and end positions. -/
theorem c10_loop_region_panics (req : LoopRegionRequest) :
    waitingLoopRegion none req = WaitOutcome.panicOnUnwrap ∧
    (∀ p : String, ∀ r : LoopRegionRequest,
      r.start_pos = none ∨ r.end_pos = none →
      waitingLoopRegion (some p) r = WaitOutcome.panicOnUnwrap) := by
  constructor
  · rfl
  · intro p r hr
    obtain ⟨en, sp, ep⟩ := r
    rcases hr with h | h
    · cases sp with
      | none => rfl
      | some v => exact absurd h (by simp)
    · cases sp with
      | none => rfl
      | some v =>
        cases ep with
        | none => rfl
        | some u => exact absurd h (by simp)

/-- Claim C10 witness. -/
theorem c10_witness :
    waitingLoopRegion none ⟨none, none, none⟩ = WaitOutcome.panicOnUnwrap ∧
    waitingLoopRegion (some "a") ⟨some true, none, some 1.0⟩ = WaitOutcome.panicOnUnwrap :=
  ⟨(c10_loop_region_panics ⟨none, none, none⟩).1,
    (c10_loop_region_panics ⟨none, none, none⟩).2 "a" ⟨some true, none, some 1.0⟩
      (Or.inl rfl)⟩

end Musicat
